import Mathlib

/-!
Verification of the MCP interceptor core (`src/backend/src/mcpInterceptorDurableObject.ts`
and the Hono worker routes bundled with it) against its natural-language
specification.

The durable object is a single-threaded actor: all of its mutations (log
appends, monitor registration, clears, broadcasts) run serialized, so the
actor is embedded as a sequential state machine.  WebSocket handles are
modelled as natural-number connection ids; a delivery record (`inbox`)
collects every message sent to every monitor, in order.  Platform
primitives that are not repository code (the WHATWG `URL` parser, the
`fetch` network call, `storage.get`/`put`) are abstracted: URL validation
becomes an arbitrary boolean predicate, the outcome of `fetch` becomes an
`Except` parameter, and durable storage becomes an explicit field of the
state.
-/

/-- `direction` field of `InterceptorLog` (interface, lines 3-13). -/
inductive Direction where
  | request
  | response
  deriving DecidableEq, Repr

/-- The `InterceptorLog` interface (lines 3-13): one captured ledger entry.
`headers` is a string-to-string record, modelled as an association list. -/
structure InterceptorLog where
  id : String
  timestamp : Nat
  direction : Direction
  method : Option String := none
  url : Option String := none
  headers : List (String × String) := []
  body : Option String := none
  status : Option Nat := none
  statusText : Option String := none
  deriving DecidableEq, Repr

/-- The `MonitorSession` interface (lines 15-18). -/
structure MonitorSession where
  interceptorId : String
  connectedAt : Nat
  deriving DecidableEq, Repr

/-- A WebSocket handle, modelled as an opaque numeric connection id. -/
abbrev ConnId := Nat

/-- The three WebSocket event variants the durable object emits
(lines 153-158, 176-179, 114-116). -/
inductive WsEvent where
  | initial_logs (logs : List InterceptorLog)
  | new_log (log : InterceptorLog)
  | logs_cleared
  deriving DecidableEq, Repr

/-- State of one `MCPInterceptorDurableObject` actor (lines 21-23):
`monitors` is the `Map<WebSocket, MonitorSession>` in insertion order,
`logs` the in-memory ledger.  `inbox` is a ghost delivery record: every
`socket.send` performed so far, as (connection, event) pairs in send
order. -/
structure DOState where
  monitors : List (ConnId × MonitorSession) := []
  logs : List InterceptorLog := []
  inbox : List (ConnId × WsEvent) := []
  deriving DecidableEq, Repr

/-- The freshly constructed actor: no monitors, empty ledger. -/
def initState : DOState := {}

/-- JavaScript `xs.slice(-n)`: the last `n` elements (all of them when
`xs` is shorter). -/
def sliceLast (n : Nat) (l : List α) : List α :=
  l.drop (l.length - n)

/-- Lines 168-173 of `addLog`: push the entry, then if the ledger exceeds
1000 entries keep only the last 1000 (`this.logs = this.logs.slice(-1000)`). -/
def pushBounded (logs : List InterceptorLog) (log : InterceptorLog) : List InterceptorLog :=
  let logs1 := logs ++ [log]
  if 1000 < logs1.length then sliceLast 1000 logs1 else logs1

/-- `broadcastToMonitors` loop body (lines 185-192): for each monitor in
map order, try `socket.send`; a failing send deletes that monitor from the
map and the loop continues.  `sendOk` tells which sockets accept the send.
Returns (surviving monitors, deliveries performed). -/
def broadcastLoop (sendOk : ConnId → Bool) (msg : WsEvent) :
    List (ConnId × MonitorSession) → List (ConnId × MonitorSession) × List (ConnId × WsEvent)
  | [] => ([], [])
  | m :: rest =>
      let r := broadcastLoop sendOk msg rest
      if sendOk m.1 then (m :: r.1, (m.1, msg) :: r.2) else r

/-- `broadcastToMonitors` (lines 182-193) acting on the actor state. -/
def broadcastToMonitors (sendOk : ConnId → Bool) (msg : WsEvent) (s : DOState) : DOState :=
  let r := broadcastLoop sendOk msg s.monitors
  { s with monitors := r.1, inbox := s.inbox ++ r.2 }

/-- `addLog` (lines 166-180): append with the 1000-entry bound, then
broadcast a `new_log` event to all monitors. -/
def addLog (sendOk : ConnId → Bool) (log : InterceptorLog) (s : DOState) : DOState :=
  broadcastToMonitors sendOk (WsEvent.new_log log) { s with logs := pushBounded s.logs log }

/-- `clearLogs` (lines 110-117): empty the ledger, then broadcast
`logs_cleared` to all monitors. -/
def clearLogs (sendOk : ConnId → Bool) (s : DOState) : DOState :=
  broadcastToMonitors sendOk WsEvent.logs_cleared { s with logs := [] }

/-- `handleWebSocketUpgrade` (lines 128-164): store the monitor session in
the map, then send the new monitor a one-time `initial_logs` replay of the
current ledger. -/
def register (c : ConnId) (sess : MonitorSession) (s : DOState) : DOState :=
  { s with monitors := s.monitors ++ [(c, sess)],
           inbox := s.inbox ++ [(c, WsEvent.initial_logs s.logs)] }

/-- One externally triggered operation on the actor. -/
inductive Op where
  | append (log : InterceptorLog)
  | register (c : ConnId) (sess : MonitorSession)
  | clear

/-- Dispatch one operation (the actor processes them one at a time). -/
def stepOp (sendOk : ConnId → Bool) (s : DOState) : Op → DOState
  | Op.append log => addLog sendOk log s
  | Op.register c sess => register c sess s
  | Op.clear => clearLogs sendOk s

/-- Run a serialized sequence of operations. -/
def run (sendOk : ConnId → Bool) (ops : List Op) (s : DOState) : DOState :=
  ops.foldl (stepOp sendOk) s

/-- The failure-free transport: every `socket.send` succeeds. -/
def allOk : ConnId → Bool := fun _ => true

/-- The events delivered to connection `c`, in delivery order. -/
def deliveriesTo (c : ConnId) (inbox : List (ConnId × WsEvent)) : List WsEvent :=
  (inbox.filter (fun p => p.1 == c)).map (·.2)

/-! ### Ledger lemmas -/

theorem sliceLast_length (n : Nat) (l : List α) :
    (sliceLast n l).length = min l.length n := by
  simp only [sliceLast, List.length_drop]
  omega

theorem sliceLast_of_le {n : Nat} {l : List α} (h : l.length ≤ n) :
    sliceLast n l = l := by
  simp [sliceLast, Nat.sub_eq_zero_of_le h]

theorem sliceLast_absorb (n : Nat) (l m : List α) :
    sliceLast n (sliceLast n l ++ m) = sliceLast n (l ++ m) := by
  rcases le_or_lt l.length n with h | h
  · rw [sliceLast_of_le h]
  · have hlen : (sliceLast n l).length = n := by rw [sliceLast_length]; omega
    have hj : l.length - n ≤ l.length := Nat.sub_le _ _
    show (sliceLast n l ++ m).drop ((sliceLast n l ++ m).length - n)
       = (l ++ m).drop ((l ++ m).length - n)
    rw [List.length_append, List.length_append, hlen,
        show n + m.length - n = m.length by omega,
        show l.length + m.length - n = (l.length - n) + m.length by omega,
        ← List.drop_drop, List.drop_append_of_le_length hj]
    rfl

theorem broadcastLoop_eq (sendOk : ConnId → Bool) (msg : WsEvent)
    (l : List (ConnId × MonitorSession)) :
    broadcastLoop sendOk msg l
      = (l.filter (fun m => sendOk m.1), (l.filter (fun m => sendOk m.1)).map (fun m => (m.1, msg))) := by
  induction l with
  | nil => rfl
  | cons m rest ih =>
      cases h : sendOk m.1 <;> simp [broadcastLoop, ih, List.filter_cons, h]

theorem pushBounded_eq (logs : List InterceptorLog) (log : InterceptorLog) :
    pushBounded logs log = sliceLast 1000 (logs ++ [log]) := by
  unfold pushBounded
  simp only []
  split
  · rfl
  · next h =>
    rw [sliceLast_of_le]
    simp only [List.length_append, List.length_singleton] at h ⊢
    omega

theorem pushBounded_length_le (logs : List InterceptorLog) (log : InterceptorLog) :
    (pushBounded logs log).length ≤ 1000 ∨ (logs ++ [log]).length ≤ 1000 := by
  rw [pushBounded_eq, sliceLast_length]
  omega

theorem foldl_pushBounded (es : List InterceptorLog) (l : List InterceptorLog)
    (h : l.length ≤ 1000) :
    es.foldl pushBounded l = sliceLast 1000 (l ++ es) := by
  induction es generalizing l with
  | nil => simp [sliceLast_of_le h]
  | cons e es ih =>
      have h1 : (pushBounded l e).length ≤ 1000 := by
        rw [pushBounded_eq, sliceLast_length]; omega
      calc (e :: es).foldl pushBounded l
          = es.foldl pushBounded (pushBounded l e) := rfl
        _ = sliceLast 1000 (pushBounded l e ++ es) := ih _ h1
        _ = sliceLast 1000 (sliceLast 1000 (l ++ [e]) ++ es) := by rw [pushBounded_eq]
        _ = sliceLast 1000 ((l ++ [e]) ++ es) := sliceLast_absorb ..
        _ = sliceLast 1000 (l ++ e :: es) := by simp

theorem addLog_allOk (e : InterceptorLog) (s : DOState) :
    addLog allOk e s
      = { monitors := s.monitors,
          logs := pushBounded s.logs e,
          inbox := s.inbox ++ s.monitors.map (fun m => (m.1, WsEvent.new_log e)) } := by
  simp [addLog, broadcastToMonitors, broadcastLoop_eq, allOk, List.filter_true]

theorem run_appends_allOk (es : List InterceptorLog) (s : DOState) :
    run allOk (es.map Op.append) s
      = { monitors := s.monitors,
          logs := es.foldl pushBounded s.logs,
          inbox := s.inbox
            ++ (es.map (fun e => s.monitors.map (fun m => (m.1, WsEvent.new_log e)))).flatten } := by
  induction es generalizing s with
  | nil => simp [run]
  | cons e es ih =>
      show run allOk (es.map Op.append) (addLog allOk e s) = _
      rw [addLog_allOk, ih]
      simp

theorem run_append_ops (sendOk : ConnId → Bool) (a b : List Op) (s : DOState) :
    run sendOk (a ++ b) s = run sendOk b (run sendOk a s) :=
  List.foldl_append ..

theorem run_single_register (pre post : List InterceptorLog) (c : ConnId)
    (sess : MonitorSession) :
    run allOk (pre.map Op.append ++ Op.register c sess :: post.map Op.append) initState
      = { monitors := [(c, sess)],
          logs := post.foldl pushBounded (sliceLast 1000 pre),
          inbox := (c, WsEvent.initial_logs (sliceLast 1000 pre))
            :: post.map (fun e => (c, WsEvent.new_log e)) } := by
  have hpre : run allOk (pre.map Op.append) initState
      = { monitors := [], logs := sliceLast 1000 pre, inbox := [] } := by
    rw [run_appends_allOk]
    have hj : (pre.map (fun e => ([] : List (ConnId × MonitorSession)).map
        (fun m => (m.1, WsEvent.new_log e)))).flatten = ([] : List (ConnId × WsEvent)) := by
      induction pre with
      | nil => rfl
      | cons a t ih => simp [ih]
    have hf : List.foldl pushBounded ([] : List InterceptorLog) pre = sliceLast 1000 pre := by
      simpa using foldl_pushBounded pre [] (by simp)
    simp [initState, hj, hf]
  have hmap : (post.map (fun e => [(c, WsEvent.new_log e)])).flatten
      = post.map (fun e => (c, WsEvent.new_log e)) := by
    induction post with
    | nil => rfl
    | cons a t ih => simp [ih]
  rw [show pre.map Op.append ++ Op.register c sess :: post.map Op.append
        = pre.map Op.append ++ ([Op.register c sess] ++ post.map Op.append) by simp,
      run_append_ops, run_append_ops, hpre]
  show run allOk (post.map Op.append)
      (register c sess { monitors := [], logs := sliceLast 1000 pre, inbox := [] }) = _
  rw [run_appends_allOk]
  simp [register, hmap]

theorem deliveriesTo_cons_self (c : ConnId) (ev : WsEvent) (l : List (ConnId × WsEvent)) :
    deliveriesTo c ((c, ev) :: l) = ev :: deliveriesTo c l := by
  simp [deliveriesTo, List.filter_cons]

theorem deliveriesTo_map_self (c : ConnId) (f : InterceptorLog → WsEvent)
    (l : List InterceptorLog) :
    deliveriesTo c (l.map (fun e => (c, f e))) = l.map f := by
  induction l with
  | nil => rfl
  | cons a t ih =>
      show deliveriesTo c ((c, f a) :: t.map (fun e => (c, f e))) = f a :: t.map f
      rw [deliveriesTo_cons_self, ih]

/-! ### Config Store (`setTargetUrl`, `getTargetUrl`, `initializeFromStorage`) -/

/-- JavaScript falsiness of a nullable string (`!x`): null or the empty
string. -/
def strFalsy (o : Option String) : Bool := o.getD "" == ""

/-- `(await this.ctx.storage.get("targetUrl")) || null` (lines 54, 86,
104): a missing or falsy stored value collapses to null. -/
def orNull (o : Option String) : Option String := if strFalsy o then none else o

/-- Config-store slice of the actor: the in-memory `this.targetUrl`
(line 23), the durably stored `"targetUrl"` key, and a ghost counter of
`storage.get` calls used to state the lazy-load claim. -/
structure CfgState where
  mem : Option String := none
  storage : Option String := none
  reads : Nat := 0
  deriving DecidableEq, Repr

/-- Result record of `setTargetUrl` (lines 62-76). -/
structure SetResult where
  success : Bool
  error : Option String := none
  deriving DecidableEq, Repr

/-- `setTargetUrl` (lines 62-76): `new URL(targetUrl)` validates via the
platform URL parser (abstracted as the predicate `isValidUrl`); on success
the in-memory value is assigned and `storage.put` persists it; a parse
failure returns `"Invalid URL format"` from the catch block before any
mutation. -/
def setTargetUrl (isValidUrl : String → Bool) (targetUrl : String) (s : CfgState) :
    SetResult × CfgState :=
  if isValidUrl targetUrl then
    ({ success := true }, { s with mem := some targetUrl, storage := some targetUrl })
  else
    ({ success := false, error := some "Invalid URL format" }, s)

/-- `getTargetUrl` (lines 102-107): when `this.targetUrl` is falsy, read
storage (counted in `reads`) and cache the result in memory; otherwise
answer from memory without touching storage. -/
def getTargetUrl (s : CfgState) : Option String × CfgState :=
  if strFalsy s.mem then
    (orNull s.storage, { s with mem := orNull s.storage, reads := s.reads + 1 })
  else
    (s.mem, s)

/-- `getTargetUrl` iterated `n` more times after some call (state only). -/
def getN : Nat → CfgState → CfgState
  | 0, s => s
  | n + 1, s => getN n (getTargetUrl s).2

/-! ### Claim theorems: ledger and fanout -/

/-- C2: starting from the empty ledger, a sequence of `N` appends leaves
exactly the last `min(N, 1000)` appended entries, in append order (strict
FIFO eviction of the oldest — `sliceLast 1000 entries` is exactly the
final `min(N, 1000)` entries of the append sequence). -/
theorem bounded_fifo_ledger (entries : List InterceptorLog) :
    (run allOk (entries.map Op.append) initState).logs = sliceLast 1000 entries
    ∧ (run allOk (entries.map Op.append) initState).logs.length
        = min entries.length 1000 := by
  have h : (run allOk (entries.map Op.append) initState).logs = sliceLast 1000 entries := by
    rw [run_appends_allOk]
    simpa [initState] using foldl_pushBounded entries [] (by simp)
  exact ⟨h, by rw [h, sliceLast_length]⟩

/-- C1 (amended): for an observer registration interleaved with appends
(all sends succeeding), the observer receives exactly one `initial_logs`
replay holding the last `min(N, 1000)` of the `N` appends that completed
before the snapshot — appends already evicted by the 1000-entry capacity
bound are absent and are never delivered — followed by exactly one
`new_log` live event per append after registration, in append order;
nothing is delivered both ways, and nothing else is delivered. -/
theorem registration_replay_live_split (pre post : List InterceptorLog) (c : ConnId)
    (sess : MonitorSession) :
    deliveriesTo c
        (run allOk (pre.map Op.append ++ Op.register c sess :: post.map Op.append)
          initState).inbox
      = WsEvent.initial_logs (sliceLast 1000 pre) :: post.map WsEvent.new_log := by
  rw [run_single_register]
  show deliveriesTo c ((c, WsEvent.initial_logs (sliceLast 1000 pre))
      :: post.map (fun e => (c, WsEvent.new_log e))) = _
  rw [deliveriesTo_cons_self, deliveriesTo_map_self]

/-- A distinct dummy ledger entry per index. -/
def eN (n : Nat) : InterceptorLog :=
  { id := toString n, timestamp := n, direction := Direction.request }

/-- 1001 distinct entries appended before the observer registers. -/
def cexPre : List InterceptorLog := (List.range 1001).map eN

/-- Session metadata of the counterexample observer. -/
def sess0 : MonitorSession := { interceptorId := "abc", connectedAt := 0 }

/-- C1 counterexample: after 1001 appends a registering observer's replay
is the only delivery it ever gets, and the first append (`eN 0`, which
completed strictly before the registration snapshot) is not in it — that
append reaches the registered observer zero times, contradicting the
claim that every append completing before the snapshot appears in the
replay and that no append is delivered zero times. -/
theorem registration_evicted_append_lost :
    deliveriesTo 0 (run allOk (cexPre.map Op.append ++ [Op.register 0 sess0])
        initState).inbox
      = [WsEvent.initial_logs (sliceLast 1000 cexPre)]
    ∧ eN 0 ∉ sliceLast 1000 cexPre := by
  constructor
  · have h := registration_replay_live_split cexPre [] 0 sess0
    simpa using h
  · have hlen : cexPre.length = 1001 := by simp [cexPre]
    have hdrop : sliceLast 1000 cexPre = ((List.range 1000).map Nat.succ).map eN := by
      show cexPre.drop (cexPre.length - 1000) = _
      rw [hlen]
      show cexPre.drop 1 = _
      rw [cexPre, List.range_succ_eq_map]
      simp
    rw [hdrop]
    intro hmem
    rcases List.mem_map.mp hmem with ⟨j, hj, hje⟩
    rcases List.mem_map.mp hj with ⟨k, _, hk⟩
    have := congrArg InterceptorLog.timestamp hje
    rw [← hk] at this
    simp [eN] at this

/-- C6: per-connection fault isolation in `broadcastToMonitors` — the
monitors whose send fails are exactly the ones removed from the registry,
and the event is still delivered (exactly once, in registry order) to
every monitor whose send succeeds; no send failure aborts the loop. -/
theorem broadcast_fault_isolation (sendOk : ConnId → Bool) (msg : WsEvent) (s : DOState) :
    (broadcastToMonitors sendOk msg s).monitors = s.monitors.filter (fun m => sendOk m.1)
    ∧ (broadcastToMonitors sendOk msg s).inbox
        = s.inbox ++ (s.monitors.filter (fun m => sendOk m.1)).map (fun m => (m.1, msg))
    ∧ (broadcastToMonitors sendOk msg s).logs = s.logs := by
  simp [broadcastToMonitors, broadcastLoop_eq]

/-- C7: `clearLogs` empties the ledger and sends `logs_cleared` to every
currently registered monitor (in registry order); an observer that
registers afterward, before any further append, receives an empty
`initial_logs` replay. -/
theorem clear_logs_semantics (s : DOState) (c : ConnId) (sess : MonitorSession) :
    (clearLogs allOk s).logs = []
    ∧ (clearLogs allOk s).inbox
        = s.inbox ++ s.monitors.map (fun m => (m.1, WsEvent.logs_cleared))
    ∧ (register c sess (clearLogs allOk s)).inbox
        = (clearLogs allOk s).inbox ++ [(c, WsEvent.initial_logs [])] := by
  refine ⟨rfl, ?_, rfl⟩
  simp [clearLogs, broadcastToMonitors, broadcastLoop_eq, allOk, List.filter_true]

/-! ### Proxy Pipeline (worker route `app.all("/proxy/:id/*")`, lines 327-453) -/

/-- The inbound proxied request as the route handler sees it: `body` is
the content of the request body stream (`none` when the body is null);
`bodyTextOk` says whether reading the cloned body as text succeeds
(lines 362-367 fall back to a sentinel on failure). -/
structure InboundReq where
  method : String
  url : String
  headers : List (String × String)
  body : Option String := none
  bodyTextOk : Bool := true
  deriving DecidableEq, Repr

/-- The upstream response a successful `fetch` produces (line 401):
`body` is the response body stream, `bodyTextOk` whether
`response.clone().text()` succeeds (lines 410-415). -/
structure FetchResp where
  status : Nat
  statusText : String
  headers : List (String × String)
  body : Option String := none
  bodyTextOk : Bool := true
  deriving DecidableEq, Repr

/-- The outbound request built at lines 394-398. -/
structure OutboundReq where
  url : String
  method : String
  headers : List (String × String)
  body : Option String
  deriving DecidableEq, Repr

/-- An HTTP response returned to the proxied caller. -/
structure HttpResp where
  status : Nat
  statusText : String := ""
  headers : List (String × String) := []
  body : Option String := none
  deriving DecidableEq, Repr

/-- Everything one handler invocation does: the entries passed to
`durableObject.logRequest` in order, the outbound `fetch` issued (when
forwarding started), and the response returned to the caller. -/
structure ProxyResult where
  logged : List InterceptorLog
  outbound : Option OutboundReq
  response : HttpResp
  deriving DecidableEq, Repr

/-- The sentinel recorded for unreadable bodies (lines 366, 414). -/
def binarySentinel : String := "[Binary data]"

/-- `JSON.stringify(\x7b error: "Failed to proxy request", details \x7d)`
(lines 439-442); JSON string escaping of `details` is not modelled. -/
def errBody (details : String) : String :=
  "\x7b\"error\":\"Failed to proxy request\",\"details\":\"" ++ details ++ "\"\x7d"

/-- Body of the 400 gate response (lines 337-343). -/
def noTargetBody : String :=
  "\x7b\"error\":\"No target URL configured for this interceptor\"\x7d"

/-- Lines 355-368: capture the request body non-destructively (clone then
read text), only for POST/PUT/PATCH requests with a non-null body. -/
def capturedReqBody (req : InboundReq) : Option String :=
  match req.body with
  | none => none
  | some s =>
      if req.method == "POST" || req.method == "PUT" || req.method == "PATCH" then
        some (if req.bodyTextOk then s else binarySentinel)
      else none

/-- Lines 409-415: capture the response body from a clone (`text()` of a
null body is the empty string). -/
def capturedRespBody (resp : FetchResp) : String :=
  if resp.bodyTextOk then resp.body.getD "" else binarySentinel

/-- The `/proxy/:id/*` route handler (lines 327-453).  `targetUrl` is what
the `getTargetUrl` RPC returned; `requestId` the fresh UUID of line 345;
`t0`, `t1` the `Date.now()` readings; `fetchRes` the outcome of the
platform `fetch` call, `Except.error msg` being a thrown network, timeout
or stream failure.  `new URL(targetUrl).toString()` (lines 386-394) is
modelled as the target string itself — WHATWG URL re-serialization is not
modelled; note the inbound URL (`originalUrl`, line 385) is parsed by the
source but never used to build the outbound request, whose URL is derived
from `targetUrl` alone. -/
def proxyHandler (targetUrl : Option String) (req : InboundReq) (requestId : String)
    (t0 t1 : Nat) (fetchRes : Except String FetchResp) : ProxyResult :=
  if strFalsy targetUrl then
    { logged := [], outbound := none,
      response := { status := 400, headers := [("content-type", "application/json")],
                    body := some noTargetBody } }
  else
    let target := targetUrl.getD ""
    let requestLog : InterceptorLog :=
      { id := requestId, timestamp := t0, direction := Direction.request,
        method := some req.method, url := some req.url, headers := req.headers,
        body := capturedReqBody req }
    let outboundReq : OutboundReq :=
      { url := target, method := req.method, headers := req.headers, body := req.body }
    match fetchRes with
    | Except.ok resp =>
        let responseLog : InterceptorLog :=
          { id := requestId ++ "-response", timestamp := t1,
            direction := Direction.response, headers := resp.headers,
            body := some (capturedRespBody resp), status := some resp.status,
            statusText := some resp.statusText }
        { logged := [requestLog, responseLog], outbound := some outboundReq,
          response := { status := resp.status, statusText := resp.statusText,
                        headers := resp.headers, body := resp.body } }
    | Except.error msg =>
        let errorLog : InterceptorLog :=
          { id := requestId ++ "-error", timestamp := t1,
            direction := Direction.response,
            headers := [("content-type", "application/json")],
            body := some (errBody msg), status := some 500,
            statusText := some "Proxy Error" }
        { logged := [requestLog, errorLog], outbound := some outboundReq,
          response := { status := 500,
                        headers := [("Content-Type", "application/json")],
                        body := some (errBody msg) } }

/-! ### Claim theorems: proxy pipeline and config store -/

/-- C3: with a configured target, the handler appends exactly two ledger
entries and nothing else: a request entry whose id is `requestId` and a
response entry whose id is derived from it — `requestId ++ "-response"`
when the forward succeeds, `requestId ++ "-error"` when it fails. -/
theorem request_response_pairing (targetUrl : String)
    (h : strFalsy (some targetUrl) = false) (req : InboundReq) (requestId : String)
    (t0 t1 : Nat) (fetchRes : Except String FetchResp) :
    (proxyHandler (some targetUrl) req requestId t0 t1 fetchRes).logged.map (·.id)
      = [requestId, requestId ++ (match fetchRes with
          | Except.ok _ => "-response"
          | Except.error _ => "-error")]
    ∧ (proxyHandler (some targetUrl) req requestId t0 t1 fetchRes).logged.map (·.direction)
      = [Direction.request, Direction.response] := by
  cases fetchRes <;> constructor <;> simp [proxyHandler, h]

/-- C4: when the outbound forward fails with `msg`, the handler appends
the request entry followed by an error entry with id
`requestId ++ "-error"`, status 500, statusText `"Proxy Error"` and the
JSON failure body, and returns a synthesized 500 response carrying that
same JSON body; `proxyHandler` is a total function, so the pipeline
always completes with some HTTP response. -/
theorem forwarding_failure_logged_and_500 (targetUrl : String)
    (h : strFalsy (some targetUrl) = false) (req : InboundReq) (requestId : String)
    (t0 t1 : Nat) (msg : String) :
    (proxyHandler (some targetUrl) req requestId t0 t1 (Except.error msg)).logged
      = [{ id := requestId, timestamp := t0, direction := Direction.request,
           method := some req.method, url := some req.url, headers := req.headers,
           body := capturedReqBody req },
         { id := requestId ++ "-error", timestamp := t1, direction := Direction.response,
           headers := [("content-type", "application/json")], body := some (errBody msg),
           status := some 500, statusText := some "Proxy Error" }]
    ∧ (proxyHandler (some targetUrl) req requestId t0 t1 (Except.error msg)).response
      = { status := 500, headers := [("Content-Type", "application/json")],
          body := some (errBody msg) } := by
  constructor <;> simp [proxyHandler, h]

/-- C5: with no configured target the handler fails immediately with the
400 configuration error: no ledger entry is appended, no outbound request
is made, and the caller receives the 4xx response describing the missing
configuration. -/
theorem no_target_gate (targetUrl : Option String) (h : strFalsy targetUrl = true)
    (req : InboundReq) (requestId : String) (t0 t1 : Nat)
    (fetchRes : Except String FetchResp) :
    proxyHandler targetUrl req requestId t0 t1 fetchRes
      = { logged := [], outbound := none,
          response := { status := 400, headers := [("content-type", "application/json")],
                        body := some noTargetBody } } := by
  simp [proxyHandler, h]

/-- C10: with a configured target, the outbound request is addressed to
exactly the configured target URL while reusing the inbound method,
headers, and body stream; the inbound URL — including any extra path
segments and query after `/proxy/:id` — never influences the outbound
request (replacing it changes nothing). -/
theorem outbound_targets_configured_url (targetUrl : String)
    (h : strFalsy (some targetUrl) = false) (req : InboundReq) (requestId : String)
    (t0 t1 : Nat) (fetchRes : Except String FetchResp) :
    (proxyHandler (some targetUrl) req requestId t0 t1 fetchRes).outbound
      = some { url := targetUrl, method := req.method, headers := req.headers,
               body := req.body }
    ∧ ∀ u' : String,
        (proxyHandler (some targetUrl) { req with url := u' } requestId t0 t1
            fetchRes).outbound
          = (proxyHandler (some targetUrl) req requestId t0 t1 fetchRes).outbound := by
  cases fetchRes <;> exact ⟨by simp [proxyHandler, h], fun u' => by simp [proxyHandler, h]⟩

/-- C8: `setTargetUrl` succeeds exactly when the address passes the URL
parser (`isValidUrl` abstracts `new URL`); on failure it reports
`"Invalid URL format"` and leaves both the in-memory and the durably
stored target unchanged; on success it overwrites both with the new value
and nothing else — no history is kept. -/
theorem set_target_validation (isValidUrl : String → Bool) (t : String) (s : CfgState) :
    (setTargetUrl isValidUrl t s).1.success = isValidUrl t
    ∧ (isValidUrl t = false →
        (setTargetUrl isValidUrl t s).1.error = some "Invalid URL format"
        ∧ (setTargetUrl isValidUrl t s).2 = s)
    ∧ (isValidUrl t = true →
        (setTargetUrl isValidUrl t s).2 = { s with mem := some t, storage := some t }) := by
  by_cases h : isValidUrl t <;> simp [setTargetUrl, h]

/-- An example URL validator standing in for the platform parser. -/
def urlOkEx : String → Bool := fun u => u == "https://ok.example/"

/-- Witness for C8 at concrete inputs: a rejected address leaves the
previously configured target untouched, an accepted one overwrites it. -/
theorem set_target_validation_witness :
    (urlOkEx "not a url" = false
      ∧ (setTargetUrl urlOkEx "not a url"
          { mem := some "https://prev.example/", storage := some "https://prev.example/",
            reads := 0 }).2
        = { mem := some "https://prev.example/", storage := some "https://prev.example/",
            reads := 0 })
    ∧ (urlOkEx "https://ok.example/" = true
      ∧ (setTargetUrl urlOkEx "https://ok.example/"
          { mem := some "https://prev.example/", storage := some "https://prev.example/",
            reads := 0 }).2
        = { mem := some "https://ok.example/", storage := some "https://ok.example/",
            reads := 0 }) :=
  ⟨⟨by decide, ((set_target_validation urlOkEx "not a url" _).2.1 (by decide)).2⟩,
   ⟨by decide, (set_target_validation urlOkEx "https://ok.example/" _).2.2 (by decide)⟩⟩

/-- C9 (amended): after a revival (in-memory target not yet loaded), if
durable storage holds a truthy target value, the first `getTargetUrl`
call performs exactly one storage read, caches the value in memory and
returns it; the resulting state is a fixed point of `getTargetUrl`, so
every subsequent call returns the same value from the in-memory cache and
performs no further storage read.  (When storage holds no target the code
re-reads storage on every call — see the counterexample.) -/
theorem get_target_lazy_load_cached (s : CfgState) (h : s.mem = none)
    (v : String) (hv : orNull s.storage = some v) :
    getTargetUrl s = (some v, { s with mem := some v, reads := s.reads + 1 })
    ∧ getTargetUrl (getTargetUrl s).2 = ((getTargetUrl s).1, (getTargetUrl s).2)
    ∧ ∀ n, getN n (getTargetUrl s).2 = (getTargetUrl s).2 := by
  have hvf : strFalsy (some v) = false := by
    unfold orNull at hv
    split at hv
    · exact absurd hv (by simp)
    · next hns => rw [hv] at hns; simpa using hns
  have h1 : getTargetUrl s = (some v, { s with mem := some v, reads := s.reads + 1 }) := by
    simp [getTargetUrl, h, hv, strFalsy]
  have hfix : getTargetUrl (getTargetUrl s).2 = ((getTargetUrl s).1, (getTargetUrl s).2) := by
    rw [h1]
    simp [getTargetUrl, hvf]
  refine ⟨h1, hfix, ?_⟩
  intro n
  induction n with
  | zero => rfl
  | succ n ih =>
      show getN n (getTargetUrl (getTargetUrl s).2).2 = _
      rw [hfix]
      exact ih

/-- C9 counterexample: with nothing in durable storage the in-memory
value stays null, so each of two successive `getTargetUrl` calls performs
its own storage read (`reads = 2` after the second call) — the lazy load
does not happen "exactly once" and later calls do consult storage again,
contradicting the claim. -/
theorem get_target_reread_counterexample :
    (getTargetUrl { mem := none, storage := none, reads := 0 }).2.reads = 1
    ∧ (getTargetUrl
        (getTargetUrl { mem := none, storage := none, reads := 0 }).2).2.reads = 2 := by
  exact ⟨by decide, by decide⟩

/-- A just-revived config store whose durable storage holds a target. -/
def revivedCfg : CfgState :=
  { mem := none, storage := some "https://t.example/", reads := 0 }

/-- Witness for C9 at a concrete revival state: one storage read, then
the cached fixed point. -/
theorem get_target_lazy_load_cached_witness :
    revivedCfg.mem = none
    ∧ orNull revivedCfg.storage = some "https://t.example/"
    ∧ getTargetUrl revivedCfg
        = (some "https://t.example/",
           { mem := some "https://t.example/", storage := some "https://t.example/",
             reads := 1 })
    ∧ getTargetUrl (getTargetUrl revivedCfg).2
        = ((getTargetUrl revivedCfg).1, (getTargetUrl revivedCfg).2) :=
  ⟨rfl, by decide,
   (get_target_lazy_load_cached revivedCfg rfl "https://t.example/" (by decide)).1,
   (get_target_lazy_load_cached revivedCfg rfl "https://t.example/" (by decide)).2.1⟩

/-- A concrete inbound proxied call: POST with a JSON body, addressed to
the worker with extra path segments and a query after `/proxy/:id`. -/
def reqEx : InboundReq :=
  { method := "POST", url := "https://worker.example/proxy/abc/extra/path?q=1",
    headers := [("content-type", "application/json")],
    body := some "\x7b\"jsonrpc\":\"2.0\",\"method\":\"ping\"\x7d" }

/-- A concrete upstream response. -/
def respEx : FetchResp :=
  { status := 200, statusText := "OK", headers := [("content-type", "application/json")],
    body := some "\x7b\"jsonrpc\":\"2.0\",\"result\":\x7b\x7d\x7d" }

/-- Witness for C3 at a concrete successful call: the two appended
entries carry the paired ids. -/
theorem request_response_pairing_witness :
    strFalsy (some "https://t.example/") = false
    ∧ (proxyHandler (some "https://t.example/") reqEx "rid" 5 9
          (Except.ok respEx)).logged.map (·.id)
        = ["rid", "rid" ++ "-response"]
    ∧ (proxyHandler (some "https://t.example/") reqEx "rid" 5 9
          (Except.ok respEx)).logged.map (·.direction)
        = [Direction.request, Direction.response] :=
  ⟨by decide,
   (request_response_pairing "https://t.example/" (by decide) reqEx "rid" 5 9
      (Except.ok respEx)).1,
   (request_response_pairing "https://t.example/" (by decide) reqEx "rid" 5 9
      (Except.ok respEx)).2⟩

/-- Witness for C4 at a concrete failing forward: the caller gets the
synthesized 500 with the JSON failure body. -/
theorem forwarding_failure_logged_and_500_witness :
    strFalsy (some "https://t.example/") = false
    ∧ (proxyHandler (some "https://t.example/") reqEx "rid" 5 9
          (Except.error "fetch failed")).response
        = { status := 500, headers := [("Content-Type", "application/json")],
            body := some (errBody "fetch failed") } :=
  ⟨by decide,
   (forwarding_failure_logged_and_500 "https://t.example/" (by decide) reqEx "rid" 5 9
      "fetch failed").2⟩

/-- Witness for C5 at a concrete unconfigured call: nothing logged, no
forward, 400 returned. -/
theorem no_target_gate_witness :
    strFalsy (none : Option String) = true
    ∧ proxyHandler none reqEx "rid" 5 9 (Except.error "unused")
        = { logged := [], outbound := none,
            response := { status := 400,
                          headers := [("content-type", "application/json")],
                          body := some noTargetBody } } :=
  ⟨by decide, no_target_gate none (by decide) reqEx "rid" 5 9 (Except.error "unused")⟩

/-- Witness for C10 at a concrete call: the outbound request goes to the
configured target and is unchanged when the inbound URL differs. -/
theorem outbound_targets_configured_url_witness :
    strFalsy (some "https://t.example/") = false
    ∧ (proxyHandler (some "https://t.example/") reqEx "rid" 5 9
          (Except.ok respEx)).outbound
        = some { url := "https://t.example/", method := reqEx.method,
                 headers := reqEx.headers, body := reqEx.body }
    ∧ (proxyHandler (some "https://t.example/")
          { reqEx with url := "https://worker.example/proxy/abc/other?z=9" } "rid" 5 9
          (Except.ok respEx)).outbound
        = (proxyHandler (some "https://t.example/") reqEx "rid" 5 9
            (Except.ok respEx)).outbound :=
  ⟨by decide,
   (outbound_targets_configured_url "https://t.example/" (by decide) reqEx "rid" 5 9
      (Except.ok respEx)).1,
   (outbound_targets_configured_url "https://t.example/" (by decide) reqEx "rid" 5 9
      (Except.ok respEx)).2 "https://worker.example/proxy/abc/other?z=9"⟩
